import Mathlib

/-!
Verification of the ApiChecker utility (delapaska/ApiChecker).

The source file `main.go` contains two concatenated variants of the same
program.  We model both:

* `V1` (lines 1-119): `performCheck` always sends its result on the
  `results` channel; `runTests` launches one goroutine per check, sleeps
  `interval`, then polls an OS-signal channel.  On a stop signal it
  executes `close(results); wg.Wait(); return` — closing the channel
  BEFORE the wait barrier.  On the normal path it executes
  `wg.Wait(); close(results)`, drains, prints the percentage dividing by
  `numChecks`, and writes `test_results.json`.

* `V2` (lines 121-262): `performCheck` sends `CheckResult{Success:false}`
  unconditionally when `http.Get` returned an error; on a successful
  response it selects on `ctx.Done()` — if cancellation has fired it
  closes the response body and returns without sending, otherwise it
  sends `CheckResult{Success: statusCode == 200}`.  `runTests` launches
  a goroutine, then selects on `ctx.Done()`: on cancellation it does
  `wg.Wait(); close(results)` and collects; otherwise it sleeps and
  iterates.  `main` prints the percentage dividing by
  `len(testResult.Results)` and marshals the result to JSON.

Shallow embedding of the concurrency: each probe performs one transport
call whose outcome is a parameter (`Transport`); the interleaving is
abstracted by boolean oracles — for `V2`, `ctxIter i` tells whether the
orchestrator observes `ctx.Done()` at loop iteration `i`, and
`ctxProbe i` tells whether probe `i` observes `ctx.Done()` at its select
point; for `V1`, `stopSig i` tells whether the stop-signal poll at
iteration `i` fires and `sentBeforeClose j` tells whether probe `j`'s
channel send executed before the orchestrator's `close(results)`.
Because both variants close the channel only after (`V2`) or while
(`V1`) waiting on the barrier and then drain the buffered channel, the
multiset of collected results is determined by these oracles alone; we
represent the drained buffer as the list of emitted results in probe
index order (the real arrival order is a permutation of it, and every
claim below concerns only lengths and counts, which are
permutation-invariant).  `time.Sleep interval` does not influence any
returned value, so `interval` is carried as an inert parameter.
-/

/-- Outcome of the single `http.Get("https://thecatapi.com")` call made by a
probe: either a transport-level error (`err` — DNS failure, connection
refused, timeout), or a response carrying an HTTP status code. -/
inductive Transport where
  | err : Transport
  | resp (status : Nat) : Transport
deriving DecidableEq, Repr

/-- Go struct `CheckResult { Success bool }`. -/
structure CheckResult where
  success : Bool
deriving DecidableEq, Repr

/-- Go struct `TestResult { Results []CheckResult }`. -/
structure TestResult where
  results : List CheckResult
deriving DecidableEq, Repr

/-- Number of collected results with `Success == true` (the
`successfulCount` loop of both variants). -/
def countSuccess (t : TestResult) : Nat :=
  t.results.countP (fun r => r.success)

/-- A Go `float64` value as produced by the percentage computation:
`NaN`, `+Inf`, or an exact value.  The operands of the division are small
integer counts, exactly representable in `float64`, so modelling the
finite case by an exact rational is faithful for every claim below. -/
inductive GoFloat where
  | nan : GoFloat
  | posInf : GoFloat
  | val (q : ℚ) : GoFloat
deriving DecidableEq, Repr

/-- Go `float64` division for non-negative operands: `0.0/0.0 = NaN`,
`x/0.0 = +Inf` for `x > 0`, exact quotient otherwise. -/
def goDiv (a b : ℚ) : GoFloat :=
  if b = 0 then (if a = 0 then GoFloat.nan else GoFloat.posInf)
  else GoFloat.val (a / b)

/-- Multiplication by the literal `100` (`* 100` in both variants);
`NaN` and `+Inf` absorb. -/
def goMul100 (x : GoFloat) : GoFloat :=
  match x with
  | GoFloat.nan => GoFloat.nan
  | GoFloat.posInf => GoFloat.posInf
  | GoFloat.val q => GoFloat.val (q * 100)

/-- `float64(succ) / float64(total) * 100`, the success-percentage
expression (`V1` line 89 with `total = numChecks`, `V2` line 244 with
`total = len(testResult.Results)`). -/
def successPct (succ total : Nat) : GoFloat :=
  goMul100 (goDiv (succ : ℚ) (total : ℚ))

/-- Rendering of an exact percentage value with `%.2f` when the value is
exact in hundredths: `h` is the value in hundredths. -/
def fmtHundredths (h : Nat) : String :=
  toString (h / 100) ++ "." ++
    (if h % 100 < 10 then "0" ++ toString (h % 100) else toString (h % 100))

namespace V1

/-- `performCheck` of variant 1 (main.go lines 28-44): on a transport
error it sends `CheckResult{Success:false}`; otherwise it sends
`CheckResult{Success: resp.StatusCode == http.StatusOK}`.  It never
inspects `ctx` and always sends exactly one result. -/
def performCheck (t : Transport) : CheckResult :=
  match t with
  | Transport.err => ⟨false⟩
  | Transport.resp s => ⟨s == 200⟩

/-- First loop iteration `i < numChecks` at which the `select` on the
`stop` channel (line 60) fires, if any.  The poll at iteration `i`
happens after probe `i` has been launched and the sleep elapsed. -/
def stopObserved (stopSig : Nat → Bool) (numChecks : Nat) : Option Nat :=
  (List.range numChecks).find? stopSig

/-- Number of goroutines launched by variant 1's loop: `i + 1` when the
stop signal is observed at iteration `i`, else `numChecks`. -/
def launchedCount (stopSig : Nat → Bool) (numChecks : Nat) : Nat :=
  match stopObserved stopSig numChecks with
  | some i => i + 1
  | none => numChecks

/-- Whether some launched probe's send executes after `close(results)`:
in the stop branch (lines 61-64) the channel is closed BEFORE `wg.Wait()`,
so every launched probe `j` whose send had not yet executed at close time
(`sentBeforeClose j = false`) sends on a closed channel. -/
def sendAfterClose (stopSig sentBeforeClose : Nat → Bool)
    (numChecks : Nat) : Bool :=
  match stopObserved stopSig numChecks with
  | some i => !((List.range (i + 1)).all sentBeforeClose)
  | none => false

/-- Observable outcome of variant 1's `runTests` (which returns no
value in Go): `panicked` — a probe sent on the closed channel and the
process dies in `send on closed channel`; `stoppedEarly` — the stop
branch returned before draining or printing; `completed t` — the normal
path drained the channel into `t`. -/
inductive Outcome where
  | panicked : Outcome
  | stoppedEarly : Outcome
  | completed (t : TestResult) : Outcome
deriving DecidableEq, Repr

/-- Variant 1 `runTests` (main.go lines 46-106) under the interleaving
oracles.  `interval` only feeds `time.Sleep` and is inert. -/
def runTests (transports : Nat → Transport)
    (stopSig sentBeforeClose : Nat → Bool)
    (interval numChecks : Nat) : Outcome :=
  match stopObserved stopSig numChecks with
  | some i =>
      if (List.range (i + 1)).all sentBeforeClose then Outcome.stoppedEarly
      else Outcome.panicked
  | none =>
      Outcome.completed
        ⟨(List.range numChecks).map (fun i => performCheck (transports i))⟩

/-- The percentage variant 1 prints on the completed path (line 89): the
denominator is `numChecks`, not the number of collected results. -/
def printedPct (t : TestResult) (numChecks : Nat) : GoFloat :=
  successPct (countSuccess t) numChecks

end V1

namespace V2

/-- `performCheck` of variant 2 (main.go lines 148-172): on a transport
error it sends `CheckResult{Success:false}` WITHOUT consulting `ctx`;
on a response it computes `success := statusCode == 200`, then selects on
`ctx.Done()` — if cancellation is observed it closes the body and
returns `none` (no send), otherwise it sends the result. -/
def performCheck (t : Transport) (ctxDone : Bool) : Option CheckResult :=
  match t with
  | Transport.err => some ⟨false⟩
  | Transport.resp s => if ctxDone then none else some ⟨s == 200⟩

/-- Whether `performCheck` closes the response body: only on the
discard path (a response arrived and cancellation was observed, line
166).  On the error path `http.Get` returns a nil response, so there is
no body; on the send path the body is not closed. -/
def closesBody (t : Transport) (ctxDone : Bool) : Bool :=
  match t with
  | Transport.err => false
  | Transport.resp _ => ctxDone

/-- Launch loop of variant 2 (lines 182-195), counting goroutines: at
iteration `i` the probe is launched FIRST (`wg.Add(1); go performCheck`),
and only then is `ctx.Done()` polled; if it fires the loop stops having
launched `i + 1` probes. -/
def launchedAux (ctxIter : Nat → Bool) : Nat → Nat → Nat
  | _, 0 => 0
  | i, Nat.succ fuel =>
      if ctxIter i then 1 else 1 + launchedAux ctxIter (i + 1) fuel

/-- Number of probes variant 2 launches for a run of `numChecks`. -/
def launched (ctxIter : Nat → Bool) (numChecks : Nat) : Nat :=
  launchedAux ctxIter 0 numChecks

/-- Contents of the buffered `results` channel once `wg.Wait()` has
passed and `close(results)` executed: each of the `n` launched probes
contributed its emission (if any), listed in probe index order. -/
def sentResults (transports : Nat → Transport) (ctxProbe : Nat → Bool)
    (n : Nat) : List CheckResult :=
  (List.range n).filterMap (fun i => performCheck (transports i) (ctxProbe i))

/-- `collectResults` (lines 203-213): drains the closed channel into a
fresh `TestResult`. -/
def collectResults (buffered : List CheckResult) : TestResult :=
  ⟨buffered⟩

/-- Variant 2 `runTests` (lines 174-201): on both the cancellation path
and the normal path it runs `wg.Wait(); close(results)` and then
`collectResults`, so the returned value is the collection of everything
the launched probes emitted.  `interval` is inert. -/
def runTests (transports : Nat → Transport)
    (ctxIter ctxProbe : Nat → Bool)
    (interval numChecks : Nat) : TestResult :=
  collectResults (sentResults transports ctxProbe (launched ctxIter numChecks))

/-- The percentage variant 2's `main` prints (line 244): the denominator
is `len(testResult.Results)`. -/
def printedPct (t : TestResult) : GoFloat :=
  successPct (countSuccess t) t.results.length

end V2

/-- The mocked transport of the spec's concrete scenario for four checks:
probe statuses alternate 200/500/200/500. -/
def alternating (i : Nat) : Transport :=
  if i % 2 = 0 then Transport.resp 200 else Transport.resp 500

/-- `encoding/json` marshalling of one `CheckResult` with its
`json:"success"` tag, as the character sequence of
`\x7b"success":true\x7d` or `\x7b"success":false\x7d`. -/
def marshalCheckResult (r : CheckResult) : List Char :=
  '\x7b' :: '"' :: 's' :: 'u' :: 'c' :: 'c' :: 'e' :: 's' :: 's' :: '"' :: ':' ::
    ((if r.success then ['t', 'r', 'u', 'e'] else ['f', 'a', 'l', 's', 'e']) ++
      ['\x7d'])

/-- `encoding/json` marshalling of a slice of `CheckResult`s: the
comma-separated element encodings (no trailing comma). -/
def marshalResultsList : List CheckResult → List Char
  | [] => []
  | [r] => marshalCheckResult r
  | r :: rs => marshalCheckResult r ++ ',' :: marshalResultsList rs

/-- The twelve fixed characters `\x7b"results":[` that open the
serialized `TestResult`. -/
def resultsHeader : List Char :=
  ['\x7b', '"', 'r', 'e', 's', 'u', 'l', 't', 's', '"', ':', '[']

/-- `json.Marshal` of a `TestResult` with its `json:"results"` tag:
`\x7b"results":[ ... ]\x7d` (compact form; `V2`'s `MarshalIndent` differs
only by cosmetic whitespace, which the spec declares non-contractual). -/
def marshalTestResult (t : TestResult) : List Char :=
  resultsHeader ++ (marshalResultsList t.results ++ [']', '\x7d'])

/-- Parse one `\x7b"success":bool\x7d` object from the front of the input,
returning the decoded `CheckResult` and the remaining input. -/
def parseCheck : List Char → Option (CheckResult × List Char)
  | '\x7b' :: '"' :: 's' :: 'u' :: 'c' :: 'c' :: 'e' :: 's' :: 's' :: '"' :: ':' ::
      't' :: 'r' :: 'u' :: 'e' :: '\x7d' :: rest => some (⟨true⟩, rest)
  | '\x7b' :: '"' :: 's' :: 'u' :: 'c' :: 'c' :: 'e' :: 's' :: 's' :: '"' :: ':' ::
      'f' :: 'a' :: 'l' :: 's' :: 'e' :: '\x7d' :: rest => some (⟨false⟩, rest)
  | _ => none

/-- Parse a non-empty comma-separated sequence of result objects followed
by the closing `]`; `fuel` bounds the number of elements (one unit is
spent per element, so any `fuel` larger than the element count works). -/
def parseItems : Nat → List Char → Option (List CheckResult × List Char)
  | 0, _ => none
  | Nat.succ fuel, s =>
      match parseCheck s with
      | none => none
      | some (r, rest) =>
          match rest with
          | ',' :: rest2 =>
              match parseItems fuel rest2 with
              | none => none
              | some (rs, rem) => some (r :: rs, rem)
          | ']' :: rest2 => some ([r], rest2)
          | _ => none

/-- Parse the (possibly empty) contents of the `results` array up to and
including the closing `]`. -/
def parseResultsArray (fuel : Nat) (s : List Char) :
    Option (List CheckResult × List Char) :=
  if s.head? = some ']' then some ([], s.tail) else parseItems fuel s

/-- Parse a whole serialized `TestResult`:
`\x7b"results":[ ... ]\x7d` with nothing after the final brace.  The
input length bounds the element count, so it serves as parsing fuel. -/
def parseTestResult (s : List Char) : Option TestResult :=
  if s.take 12 = resultsHeader then
    match parseResultsArray (s.drop 12).length (s.drop 12) with
    | some (rs, ['\x7d']) => some ⟨rs⟩
    | _ => none
  else none

lemma launchedAux_le (c : Nat → Bool) : ∀ (fuel i : Nat), V2.launchedAux c i fuel ≤ fuel := by
  intro fuel
  induction fuel with
  | zero => intro i; simp [V2.launchedAux]
  | succ f ih =>
      intro i
      simp only [V2.launchedAux]
      split
      · omega
      · have := ih (i + 1); omega

lemma launchedAux_all_false (c : Nat → Bool) (h : ∀ j, c j = false) : ∀ (fuel i : Nat), V2.launchedAux c i fuel = fuel := by
  intro fuel
  induction fuel with
  | zero => intro i; simp [V2.launchedAux]
  | succ f ih =>
      intro i
      simp [V2.launchedAux, h i, ih (i + 1)]
      omega

lemma launchedAux_first_true (c : Nat → Bool) (i : Nat) (h : c i = true) (fuel : Nat) : V2.launchedAux c i (fuel + 1) = 1 := by
  simp [V2.launchedAux, h]

lemma length_filterMap_of_isSome {α β : Type} (f : α → Option β) : ∀ (l : List α), (∀ a ∈ l, (f a).isSome) → (l.filterMap f).length = l.length := by
  intro l
  induction l with
  | nil => intro _; rfl
  | cons a l ih =>
      intro h
      obtain ⟨b, hb⟩ := Option.isSome_iff_exists.mp (h a (by simp))
      simp [List.filterMap_cons, hb, ih (fun x hx => h x (by simp [hx]))]

lemma performCheck_isSome_of_active (t : Transport) : (V2.performCheck t false).isSome = true := by
  cases t <;> simp [V2.performCheck]

lemma stopObserved_none (stopSig : Nat → Bool) (numChecks : Nat) (h : ∀ i, stopSig i = false) : V1.stopObserved stopSig numChecks = none := by
  exact List.find?_eq_none.mpr (fun x _ => by simp [h x])

/-- C2: with `numChecks >= 0` and a cancellation signal that never fires,
variant 2's `runTests` returns a `TestResult` whose `Results` has length
exactly `numChecks`, and variant 1's `runTests` reaches the completed
state having drained exactly `numChecks` results. -/
theorem runTests_no_cancel_all_collected
    (transports : Nat → Transport) (ctxIter ctxProbe stopSig sbc : Nat → Bool)
    (interval numChecks : Nat)
    (hIter : ∀ i, ctxIter i = false) (hProbe : ∀ i, ctxProbe i = false)
    (hStop : ∀ i, stopSig i = false) :
    (V2.runTests transports ctxIter ctxProbe interval numChecks).results.length = numChecks ∧
    (∃ t : TestResult,
      V1.runTests transports stopSig sbc interval numChecks = V1.Outcome.completed t ∧
      t.results.length = numChecks) := by
  constructor
  · show (V2.sentResults transports ctxProbe (V2.launched ctxIter numChecks)).length = numChecks
    rw [V2.launched, launchedAux_all_false ctxIter hIter]
    rw [V2.sentResults,
      length_filterMap_of_isSome _ _
        (fun i _ => by rw [hProbe i]; exact performCheck_isSome_of_active (transports i))]
    simp
  · refine ⟨⟨(List.range numChecks).map (fun i => V1.performCheck (transports i))⟩, ?_, by simp⟩
    simp [V1.runTests, stopObserved_none stopSig numChecks hStop]

/-- C2 witness: three checks, no cancellation, all transports returning
status 200. -/
theorem runTests_no_cancel_all_collected_witness :
    (V2.runTests (fun _ => Transport.resp 200) (fun _ => false) (fun _ => false) 0 3).results.length = 3 ∧
    (∃ t : TestResult,
      V1.runTests (fun _ => Transport.resp 200) (fun _ => false) (fun _ => false) 0 3 = V1.Outcome.completed t ∧
      t.results.length = 3) :=
  runTests_no_cancel_all_collected (fun _ => Transport.resp 200)
    (fun _ => false) (fun _ => false) (fun _ => false) (fun _ => false) 0 3
    (fun _ => rfl) (fun _ => rfl) (fun _ => rfl)

/-- C3: every `CheckResult` a probe actually reports has `success = true`
iff the transport returned an HTTP response with status 200; a transport
failure is reported as `success = false` (the probe sends a result and
returns, it does not abort the run).  Both variants' `performCheck` are
covered. -/
theorem reported_success_iff_status200 (t : Transport) (c : Bool) (r : CheckResult)
    (h : V2.performCheck t c = some r) :
    (r.success = true ↔ t = Transport.resp 200) ∧
    V2.performCheck Transport.err c = some ⟨false⟩ ∧
    ((V1.performCheck t).success = true ↔ t = Transport.resp 200) := by
  refine ⟨?_, rfl, ?_⟩
  · cases t with
    | err =>
        rw [show V2.performCheck Transport.err c = some ⟨false⟩ from rfl] at h
        injection h with h2
        subst h2
        simp
    | resp s =>
        cases c with
        | true => simp [V2.performCheck] at h
        | false =>
            rw [show V2.performCheck (Transport.resp s) false = some ⟨s == 200⟩ from rfl] at h
            injection h with h2
            subst h2
            simp [Transport.resp.injEq]
  · cases t with
    | err => simp [V1.performCheck]
    | resp s => simp [V1.performCheck, Transport.resp.injEq]

/-- C3 witness: a probe seeing status 200 with no cancellation reports
`success = true`. -/
theorem reported_success_iff_status200_witness :
    (((⟨true⟩ : CheckResult).success = true ↔ Transport.resp 200 = Transport.resp 200) ∧
      V2.performCheck Transport.err false = some ⟨false⟩ ∧
      ((V1.performCheck (Transport.resp 200)).success = true ↔ Transport.resp 200 = Transport.resp 200)) :=
  reported_success_iff_status200 (Transport.resp 200) false ⟨true⟩ rfl

/-- C1: refuted on variant 1 — in the stop branch (main.go lines 61-64)
`close(results)` executes BEFORE `wg.Wait()`, so a probe whose send had
not yet happened when the channel was closed sends on the closed channel.
Concrete interleaving: one check, the stop signal observed at iteration 0
while probe 0 is still awaiting its HTTP response: the probe's send then
occurs after close and panics the process. -/
theorem send_after_close_reachable :
    V1.sendAfterClose (fun _ => true) (fun _ => false) 1 = true ∧
    V1.runTests (fun _ => Transport.err) (fun _ => true) (fun _ => false) 0 1 =
      V1.Outcome.panicked := by
  constructor
  · rfl
  · rfl

/-- C4: refuted on variant 1 — under the interleaving with two checks
where the stop signal is observed at iteration 0 while the launched probe
is still in flight, that probe's send hits the closed channel and panics
the process, so `runTests` never returns at all (instead of returning
after every probe delivered or discarded its result). -/
theorem runTests_panic_no_return :
    V1.runTests (fun _ => Transport.resp 200) (fun _ => true) (fun _ => false) 0 2 =
      V1.Outcome.panicked := by
  rfl

/-- C5 counterexample: with cancellation fired before `runTests` starts
(every `ctx.Done()` poll answers true) and `numChecks = 10`, variant 2
still launches its first probe (the launch at line 183-184 precedes the
`select` at line 186), and when that probe's transport fails it reports
`success:false` despite the cancellation, so the returned collection is
not empty. -/
theorem cancelled_prelaunch_counterexample :
    ¬((V2.runTests (fun _ => Transport.err) (fun _ => true) (fun _ => true) 0 10).results.length = 0) ∧
    ¬(V2.launched (fun _ => true) 10 = 0) := by
  constructor
  · decide
  · decide

/-- C5 amended: if cancellation has fired before `runTests` starts and
`numChecks >= 1`, variant 2 launches exactly one probe (not zero), waits
for it and returns; the returned collection is empty when that probe's
transport produced a response (the probe discards it), and holds the
single `success:false` result when the transport failed. -/
theorem cancelled_prelaunch_amended
    (transports : Nat → Transport) (ctxIter ctxProbe : Nat → Bool)
    (interval numChecks : Nat)
    (h1 : 1 ≤ numChecks) (hIter : ∀ i, ctxIter i = true)
    (hProbe : ∀ i, ctxProbe i = true) :
    V2.launched ctxIter numChecks = 1 ∧
    (V2.runTests transports ctxIter ctxProbe interval numChecks).results =
      (match transports 0 with
       | Transport.err => [⟨false⟩]
       | Transport.resp _ => []) := by
  obtain ⟨m, rfl⟩ : ∃ m, numChecks = m + 1 := by
    cases numChecks with
    | zero => omega
    | succ m => exact ⟨m, rfl⟩
  have hl : V2.launched ctxIter (m + 1) = 1 :=
    launchedAux_first_true ctxIter 0 (hIter 0) m
  refine ⟨hl, ?_⟩
  show (V2.sentResults transports ctxProbe (V2.launched ctxIter (m + 1))) = _
  rw [hl]
  show ((List.range 1).filterMap
      fun i => V2.performCheck (transports i) (ctxProbe i)) = _
  rw [show List.range 1 = [0] from rfl]
  rw [List.filterMap_cons]
  rw [hProbe 0]
  cases htr : transports 0 with
  | err => simp [V2.performCheck]
  | resp s => simp [V2.performCheck]

/-- C5 amended witness: ten checks, cancellation fired from the start,
first probe's transport failing: one probe launched, one
`success:false` result collected. -/
theorem cancelled_prelaunch_amended_witness :
    V2.launched (fun _ => true) 10 = 1 ∧
    (V2.runTests (fun _ => Transport.err) (fun _ => true) (fun _ => true) 0 10).results =
      [⟨false⟩] :=
  cancelled_prelaunch_amended (fun _ => Transport.err) (fun _ => true)
    (fun _ => true) 0 10 (by decide) (fun _ => rfl) (fun _ => rfl)

/-- C6: refuted — the percentage computation is NOT guarded against a
zero denominator.  With `numChecks = 10` and cancellation signaled
immediately (all probes' responses discarded), variant 2 collects zero
results and `main` (line 244) computes `float64(0)/float64(0)*100`,
printing `NaN%`; variant 1 with `numChecks = 0` (line 89) likewise
divides by `float64(0)` and prints `NaN%`.  Neither variant skips the
print or substitutes a NaN-safe value. -/
theorem percentage_nan_unguarded :
    (V2.runTests (fun _ => Transport.resp 200) (fun _ => true) (fun _ => true) 0 10).results.length = 0 ∧
    V2.printedPct (V2.runTests (fun _ => Transport.resp 200) (fun _ => true) (fun _ => true) 0 10) =
      GoFloat.nan ∧
    V1.printedPct ⟨[]⟩ 0 = GoFloat.nan := by
  refine ⟨by decide, ?_, ?_⟩
  · decide
  · decide

/-- C7 counterexample: a probe whose `http.Get` returned a transport
error after cancellation fired does NOT discard its result — variant 2's
error path (lines 154-158) sends `CheckResult{Success:false}` without
consulting `ctx.Done()`. -/
theorem error_probe_reports_despite_cancel :
    V2.performCheck Transport.err true ≠ none ∧
    V2.performCheck Transport.err true = some ⟨false⟩ := by
  exact ⟨by decide, rfl⟩

/-- C7 amended: a probe whose network call returned an HTTP response
after cancellation fired discards the result (emits nothing) and closes
the response body; but a probe whose network call failed with a
transport error reports `success:false` even after cancellation. -/
theorem probe_discard_amended (s : Nat) :
    V2.performCheck (Transport.resp s) true = none ∧
    V2.closesBody (Transport.resp s) true = true ∧
    V2.performCheck Transport.err true = some ⟨false⟩ :=
  ⟨rfl, rfl, rfl⟩

/-- C8: the printed summary percentage equals
`100 * countSuccess / collected` (exactly, as variant 2's `main` line 244
computes it), and in the concrete scenario of four checks with statuses
alternating 200/500/200/500 the run collects 4 results of which 2
succeed, the percentage is exactly 50, and the `%.2f` rendering is
"50.00". -/
theorem printed_pct_is_success_ratio (t : TestResult)
    (h : t.results.length ≠ 0) :
    V2.printedPct t =
      GoFloat.val ((100 * (countSuccess t : ℚ)) / (t.results.length : ℚ)) ∧
    countSuccess (V2.runTests alternating (fun _ => false) (fun _ => false) 0 4) = 2 ∧
    (V2.runTests alternating (fun _ => false) (fun _ => false) 0 4).results.length = 4 ∧
    V2.printedPct (V2.runTests alternating (fun _ => false) (fun _ => false) 0 4) =
      GoFloat.val 50 ∧
    fmtHundredths (50 * 100) = "50.00" := by
  refine ⟨?_, by decide, by decide, ?_, by decide⟩
  · have hb : ((t.results.length : ℚ)) ≠ 0 := Nat.cast_ne_zero.mpr h
    show goMul100 (goDiv ((countSuccess t : ℚ)) ((t.results.length : ℚ))) = _
    rw [goDiv, if_neg hb]
    show GoFloat.val ((countSuccess t : ℚ) / (t.results.length : ℚ) * 100) = _
    rw [div_mul_eq_mul_div, mul_comm]
  · show successPct
        (countSuccess (V2.runTests alternating (fun _ => false) (fun _ => false) 0 4))
        (V2.runTests alternating (fun _ => false) (fun _ => false) 0 4).results.length =
        GoFloat.val 50
    rw [show countSuccess (V2.runTests alternating (fun _ => false) (fun _ => false) 0 4) = 2
          from by decide,
        show (V2.runTests alternating (fun _ => false) (fun _ => false) 0 4).results.length = 4
          from by decide]
    rw [successPct, goDiv, if_neg (by norm_num)]
    show GoFloat.val (((2 : Nat) : ℚ) / ((4 : Nat) : ℚ) * 100) = GoFloat.val 50
    congr 1
    push_cast
    norm_num

/-- C8 witness: the alternating-status run itself satisfies the
formula. -/
theorem printed_pct_is_success_ratio_witness :
    V2.printedPct (V2.runTests alternating (fun _ => false) (fun _ => false) 0 4) =
      GoFloat.val ((100 * (countSuccess (V2.runTests alternating (fun _ => false) (fun _ => false) 0 4) : ℚ)) /
        ((V2.runTests alternating (fun _ => false) (fun _ => false) 0 4).results.length : ℚ)) ∧
    countSuccess (V2.runTests alternating (fun _ => false) (fun _ => false) 0 4) = 2 ∧
    (V2.runTests alternating (fun _ => false) (fun _ => false) 0 4).results.length = 4 ∧
    V2.printedPct (V2.runTests alternating (fun _ => false) (fun _ => false) 0 4) =
      GoFloat.val 50 ∧
    fmtHundredths (50 * 100) = "50.00" :=
  printed_pct_is_success_ratio
    (V2.runTests alternating (fun _ => false) (fun _ => false) 0 4) (by decide)

/-- C10: the `results` channel is created with buffer capacity
`numChecks` (`make(chan CheckResult, numChecks)`, lines 48 and 176); both
variants launch at most `numChecks` probes, each probe writes at most one
`CheckResult`, so the number of writes never exceeds the capacity —
hence no send ever blocks while the channel is open. -/
theorem channel_writes_within_capacity
    (transports : Nat → Transport) (ctxIter ctxProbe stopSig : Nat → Bool)
    (interval numChecks : Nat) :
    (V2.runTests transports ctxIter ctxProbe interval numChecks).results.length ≤
      V2.launched ctxIter numChecks ∧
    V2.launched ctxIter numChecks ≤ numChecks ∧
    V1.launchedCount stopSig numChecks ≤ numChecks := by
  refine ⟨?_, launchedAux_le ctxIter numChecks 0, ?_⟩
  · show (V2.sentResults transports ctxProbe (V2.launched ctxIter numChecks)).length ≤ _
    calc (V2.sentResults transports ctxProbe (V2.launched ctxIter numChecks)).length
        ≤ (List.range (V2.launched ctxIter numChecks)).length :=
          List.length_filterMap_le _ _
      _ = V2.launched ctxIter numChecks := List.length_range _
  · cases hfind : V1.stopObserved stopSig numChecks with
    | none => simp [V1.launchedCount, hfind]
    | some i =>
        have hi : i ∈ List.range numChecks := List.mem_of_find?_eq_some hfind
        have := List.mem_range.mp hi
        simp only [V1.launchedCount, hfind]
        omega

lemma parseCheck_marshal (r : CheckResult) (tail : List Char) :
    parseCheck (marshalCheckResult r ++ tail) = some (r, tail) := by
  cases r with
  | mk success => cases success <;> rfl

lemma length_le_marshalResultsList :
    ∀ rs : List CheckResult, rs.length ≤ (marshalResultsList rs).length := by
  intro rs
  induction rs with
  | nil => simp [marshalResultsList]
  | cons r rs ih =>
      cases rs with
      | nil =>
          cases r with
          | mk success => cases success <;> decide
      | cons r2 rs2 =>
          show (r :: r2 :: rs2).length ≤
            (marshalCheckResult r ++ ',' :: marshalResultsList (r2 :: rs2)).length
          have h1 : 1 ≤ (marshalCheckResult r).length := by
            cases r with
            | mk success => cases success <;> decide
          have ih2 : rs2.length + 1 ≤ (marshalResultsList (r2 :: rs2)).length := by
            simpa using ih
          simp only [List.length_append, List.length_cons]
          omega

lemma parseItems_marshal :
    ∀ (rs : List CheckResult) (r : CheckResult) (fuel : Nat) (tail : List Char),
      rs.length < fuel →
      parseItems fuel (marshalResultsList (r :: rs) ++ ']' :: tail) =
        some (r :: rs, tail) := by
  intro rs
  induction rs with
  | nil =>
      intro r fuel tail h
      cases fuel with
      | zero => simp at h
      | succ f =>
          show parseItems (f + 1) (marshalCheckResult r ++ ']' :: tail) = some ([r], tail)
          simp only [parseItems]
          rw [parseCheck_marshal]
          rfl
  | cons r2 rs2 ih =>
      intro r fuel tail h
      cases fuel with
      | zero => simp at h
      | succ f =>
          have h2 : rs2.length < f := by
            simp only [List.length_cons] at h
            omega
          have e : marshalResultsList (r :: r2 :: rs2) ++ ']' :: tail =
              marshalCheckResult r ++ ',' :: (marshalResultsList (r2 :: rs2) ++ ']' :: tail) := by
            show (marshalCheckResult r ++ ',' :: marshalResultsList (r2 :: rs2)) ++ ']' :: tail = _
            simp [List.append_assoc]
          rw [e]
          simp only [parseItems]
          rw [parseCheck_marshal]
          show (match parseItems f (marshalResultsList (r2 :: rs2) ++ ']' :: tail) with
                | none => none
                | some (rs, rem) => some (r :: rs, rem)) = some (r :: r2 :: rs2, tail)
          rw [ih r2 f tail h2]

lemma marshalResultsList_cons_head (r : CheckResult) (rs : List CheckResult) :
    ∃ u, marshalResultsList (r :: rs) = '\x7b' :: u := by
  cases rs with
  | nil =>
      cases r with
      | mk success => cases success <;> exact ⟨_, rfl⟩
  | cons r2 rs2 =>
      cases r with
      | mk success => cases success <;> exact ⟨_, rfl⟩

lemma parse_marshal (t : TestResult) :
    parseTestResult (marshalTestResult t) = some t := by
  cases t with
  | mk results =>
      rw [marshalTestResult, parseTestResult]
      rw [show (12 : Nat) = resultsHeader.length from rfl, List.take_left, List.drop_left]
      rw [if_pos rfl]
      cases results with
      | nil => rfl
      | cons r rs =>
          have hne : ¬((marshalResultsList (r :: rs) ++ [']', '\x7d']).head? = some ']') := by
            obtain ⟨u, hu⟩ := marshalResultsList_cons_head r rs
            rw [hu]
            simp
          have hfuel : rs.length < (marshalResultsList (r :: rs) ++ [']', '\x7d']).length := by
            have h1 : rs.length + 1 ≤ (marshalResultsList (r :: rs)).length := by
              simpa using length_le_marshalResultsList (r :: rs)
            simp only [List.length_append, List.length_cons]
            omega
          rw [parseResultsArray, if_neg hne]
          rw [parseItems_marshal rs r _ ['\x7d'] hfuel]
          rfl

/-- C9: serializing a `TestResult` of `k` results with `j` successes to
the JSON output shape `\x7b"results":[\x7b"success":bool\x7d,...]\x7d` and
parsing it back yields a collection of the same size `k` with exactly the
same number `j` of `success = true` entries (indeed the very same
`TestResult`). -/
theorem marshal_parse_roundtrip (t : TestResult) :
    ∃ t2 : TestResult, parseTestResult (marshalTestResult t) = some t2 ∧
      t2.results.length = t.results.length ∧
      countSuccess t2 = countSuccess t :=
  ⟨t, parse_marshal t, rfl, rfl⟩
